import Mathlib

/-!
Verification of the firecracker-containerd core: the task-service shim
(`runtime/service.go`) and the device-mapper thin-pool snapshotter
(`snapshotter/devmapper/devmapper.go` and its refactored variant).

External collaborators (the MetaStore transaction engine, the device-mapper
pool, the hypervisor SDK, the vsock dialer and the in-guest agent) are modelled
as oracles: pure functions supplying the outcome of each external call.  The
control flow of every embedded operation mirrors the Go source line by line;
observable side effects (RPCs, ioctls, transaction begin/commit/rollback,
event publications) are recorded in explicit traces.
-/

namespace FCShim

/-- Error values flowing through the embedded operations.  Each constructor
stands for one family of Go errors; opaque payloads are carried as `Nat`
codes or the offending `String`. -/
inductive SErr
  | notFound (key : String)
  | alreadyExists (key : String)
  | deviceErr (code : Nat)
  | txErr (code : Nat)
  | agentErr (code : Nat)
  | unsupportedMountType (t : String)
  | dialErr (code : Nat)
  | mkfsFailed (code : Nat)
deriving DecidableEq

/-- containerd `snapshots.Kind`: Unknown = 0, View = 1, Active = 2,
Committed = 3.  The zero value of `storage.Snapshot` has kind `unknown`. -/
inductive Kind
  | unknown
  | view
  | active
  | committed
deriving DecidableEq

/-- The part of containerd `storage.Snapshot` used by the snapshotter:
`ID`, `Kind`, `ParentIDs`. -/
structure SnapRecord where
  id : String
  kind : Kind
  parentIDs : List String
deriving DecidableEq

/-- containerd `mount.Mount` restricted to the fields the snapshotter sets. -/
structure Mount where
  source : String
  type : String
  options : List String
deriving DecidableEq

/-- The MetaStore contents: an association list from snapshot key to record. -/
abbrev Meta := List (String × SnapRecord)

/-- Record lookup by key. -/
def metaLookup (key : String) : Meta → Option SnapRecord
  | [] => none
  | p :: rest => if p.1 = key then some p.2 else metaLookup key rest

/-- Record deletion by key. -/
def metaErase (key : String) : Meta → Meta
  | [] => []
  | p :: rest => if p.1 = key then metaErase key rest else p :: metaErase key rest

/-- `Snapshotter.getDeviceName`: canonical device name
`<pool>-snap-<snapshot-id>`. -/
def getDeviceName (poolName snapID : String) : String :=
  poolName ++ "-snap-" ++ snapID

/-- Modelled from the spec: `dmsetup.GetFullDevicePath` is repository code not
present under `src/`; per the spec, `GetDevicePath(name)` returns
`/dev/mapper/<name>`. -/
def getFullDevicePath (name : String) : String :=
  "/dev/mapper/" ++ name

/-- `Snapshotter.getDevicePath`: device path of the snapshot record. -/
def getDevicePath (poolName : String) (snap : SnapRecord) : String :=
  getFullDevicePath (getDeviceName poolName snap.id)

/-- `Snapshotter.buildMounts`: one ext4 mount whose source is the device path;
options hold `ro` exactly when the kind differs from Active. -/
def buildMounts (poolName : String) (snap : SnapRecord) : List Mount :=
  let options : List String := if snap.kind ≠ Kind.active then ["ro"] else []
  [{ source := getDevicePath poolName snap, type := "ext4", options := options }]

/-- Modelled from the spec: MetaStore `Remove(key) → (snapshot-id, info)`.
The MetaStore is an external dependency; per its contract the record for
`key` is deleted and its snapshot id returned. -/
def storageRemove (key : String) (m : Meta) : Except SErr (String × Meta) :=
  match metaLookup key m with
  | none => .error (.notFound key)
  | some r => .ok (r.id, metaErase key m)

/-- Modelled from the spec: MetaStore `GetSnapshot(key)`. -/
def storageGetSnapshot (key : String) (m : Meta) : Except SErr SnapRecord :=
  match metaLookup key m with
  | none => .error (.notFound key)
  | some r => .ok r

/-- Modelled from the spec: MetaStore
`CreateSnapshot(kind, key, parent, opts) → record`.  The created record has
the requested kind; its parent chain starts with the id of the parent record.
`newID` stands for the fresh snapshot id the store assigns. -/
def storageCreateSnapshot (kind : Kind) (key parent newID : String) (m : Meta) :
    Except SErr (SnapRecord × Meta) :=
  if (metaLookup key m).isSome then
    .error (.alreadyExists key)
  else if parent = "" then
    let r : SnapRecord := { id := newID, kind := kind, parentIDs := [] }
    .ok (r, (key, r) :: m)
  else
    match metaLookup parent m with
    | none => .error (.notFound parent)
    | some pr =>
      let r : SnapRecord := { id := newID, kind := kind, parentIDs := pr.id :: pr.parentIDs }
      .ok (r, (key, r) :: m)

/-- Zero value of Go `storage.Snapshot`: empty id, kind Unknown, no parents. -/
def zeroSnapshot : SnapRecord :=
  { id := "", kind := Kind.unknown, parentIDs := [] }

/-- Outcomes of the MetaStore transaction plumbing around one operation. -/
structure TxOracle where
  openErr : Option SErr
  rollbackErr : Option SErr
  commitErr : Option SErr
deriving DecidableEq

/-- Observable calls made by one snapshotter operation, in order. -/
inductive SnapEvent
  | txBegin (writable : Bool)
  | storageRemoveCall (key : String)
  | removeDeviceCall (name : String) (deferred : Bool)
  | storageGetSnapshotCall (key : String)
  | storageCreateSnapshotCall (kind : Kind) (key parent : String)
  | createThinDeviceCall (name : String) (sizeBytes : Nat)
  | createSnapshotDeviceCall (parentName name : String) (sizeBytes : Nat)
  | mkfsCall (name : String)
  | txRollback
  | txCommit
deriving DecidableEq

/-- `Snapshotter.withTransaction` from the refactored snapshotter: open a
transaction, run the callback, roll back when the callback failed or the
transaction is read-only, commit otherwise; errors are aggregated with
multierror and `nil` is returned when there are none.  The callback result of
type `α` (for example the mount list captured by the closure) escapes even on
rollback, as the Go closure writes it to a local variable; the metadata state
is restored on rollback.  The emitted trace keeps all calls that happened. -/
def withTransaction {α : Type} (tx : TxOracle) (writable : Bool)
    (fn : Meta → Option SErr × Meta × List SnapEvent × α) (dflt : α) (m : Meta) :
    Option (List SErr) × Meta × List SnapEvent × α :=
  match tx.openErr with
  | some e => (some [e], m, [], dflt)
  | none =>
    match fn m with
    | (ferr, mAfter, evs, out) =>
      if ferr.isSome || !writable then
        let errs := ferr.toList ++ tx.rollbackErr.toList
        ((if errs.isEmpty then none else some errs),
          m, SnapEvent.txBegin writable :: evs ++ [SnapEvent.txRollback], out)
      else
        match tx.commitErr with
        | some te =>
          (some [te], m, SnapEvent.txBegin writable :: evs ++ [SnapEvent.txCommit], out)
        | none =>
          (none, mAfter, SnapEvent.txBegin writable :: evs ++ [SnapEvent.txCommit], out)

/-- Outcomes of the thin-pool calls made by the snapshotter.  `none` means the
call succeeded. -/
structure PoolOracle where
  removeDevice : String → Bool → Option SErr
  createThinDevice : String → Nat → Option SErr
  createSnapshotDevice : String → String → Nat → Option SErr

namespace Snapshotter

/-- `Snapshotter.removeDevice`: delete the MetaStore record for `key`, then
remove the device named after the returned snapshot id with deferred removal
(the Go call is `dm.pool.RemoveDevice(ctx, deviceName, true)`). -/
def removeDevice (pool : PoolOracle) (poolName key : String) (m : Meta) :
    Option SErr × Meta × List SnapEvent × Unit :=
  match storageRemove key m with
  | .error e => (some e, m, [SnapEvent.storageRemoveCall key], ())
  | .ok (snapID, mAfter) =>
    let deviceName := getDeviceName poolName snapID
    match pool.removeDevice deviceName true with
    | some e =>
      (some e, mAfter,
        [SnapEvent.storageRemoveCall key, SnapEvent.removeDeviceCall deviceName true], ())
    | none =>
      (none, mAfter,
        [SnapEvent.storageRemoveCall key, SnapEvent.removeDeviceCall deviceName true], ())

/-- `Snapshotter.Remove`: `removeDevice` inside one writable transaction. -/
def Remove (tx : TxOracle) (pool : PoolOracle) (poolName key : String) (m : Meta) :
    Option (List SErr) × Meta × List SnapEvent × Unit :=
  withTransaction tx true (removeDevice pool poolName key) () m

/-- The callback of `Snapshotter.Mounts`: fetch the snapshot record; the
closure variable `snap` keeps the Go zero value when the fetch fails. -/
def mountsFetch (key : String) (m : Meta) :
    Option SErr × Meta × List SnapEvent × SnapRecord :=
  match storageGetSnapshot key m with
  | .error e => (some e, m, [SnapEvent.storageGetSnapshotCall key], zeroSnapshot)
  | .ok s => (none, m, [SnapEvent.storageGetSnapshotCall key], s)

/-- `Snapshotter.Mounts`: run `mountsFetch` in a read-only transaction, ignore
the transaction error, and return `buildMounts` of whatever record the closure
captured together with a literal `nil` error. -/
def Mounts (tx : TxOracle) (poolName key : String) (m : Meta) :
    List Mount × Option SErr × List SnapEvent :=
  let r := withTransaction tx false (mountsFetch key) zeroSnapshot m
  (buildMounts poolName r.2.2.2, none, r.2.2.1)

/-- `Snapshotter.createSnapshot`: create the MetaStore record, then either a
fresh thin device formatted ext4 (no parent) or a snapshot device from the
parent, and build the mounts.  The best-effort removal of `lost+found` through
a transient mount is ignored by the Go code and omitted here. -/
def createSnapshot (pool : PoolOracle) (mkfsRun : String → Option SErr)
    (poolName : String) (baseImageSizeBytes : Nat) (kind : Kind)
    (key parent newID : String) (m : Meta) :
    Option SErr × Meta × List SnapEvent × List Mount :=
  match storageCreateSnapshot kind key parent newID m with
  | .error e => (some e, m, [SnapEvent.storageCreateSnapshotCall kind key parent], [])
  | .ok (snap, mAfter) =>
    if snap.parentIDs.isEmpty then
      let deviceName := getDeviceName poolName snap.id
      match pool.createThinDevice deviceName baseImageSizeBytes with
      | some e =>
        (some e, mAfter,
          [SnapEvent.storageCreateSnapshotCall kind key parent,
           SnapEvent.createThinDeviceCall deviceName baseImageSizeBytes], [])
      | none =>
        match mkfsRun deviceName with
        | some e =>
          (some e, mAfter,
            [SnapEvent.storageCreateSnapshotCall kind key parent,
             SnapEvent.createThinDeviceCall deviceName baseImageSizeBytes,
             SnapEvent.mkfsCall deviceName], [])
        | none =>
          (none, mAfter,
            [SnapEvent.storageCreateSnapshotCall kind key parent,
             SnapEvent.createThinDeviceCall deviceName baseImageSizeBytes,
             SnapEvent.mkfsCall deviceName], buildMounts poolName snap)
    else
      let parentDeviceName := getDeviceName poolName (snap.parentIDs.headD "")
      let snapDeviceName := getDeviceName poolName snap.id
      match pool.createSnapshotDevice parentDeviceName snapDeviceName baseImageSizeBytes with
      | some e =>
        (some e, mAfter,
          [SnapEvent.storageCreateSnapshotCall kind key parent,
           SnapEvent.createSnapshotDeviceCall parentDeviceName snapDeviceName baseImageSizeBytes],
          [])
      | none =>
        (none, mAfter,
          [SnapEvent.storageCreateSnapshotCall kind key parent,
           SnapEvent.createSnapshotDeviceCall parentDeviceName snapDeviceName baseImageSizeBytes],
          buildMounts poolName snap)

/-- `Snapshotter.Prepare`: `createSnapshot` with kind Active in a writable
transaction. -/
def Prepare (tx : TxOracle) (pool : PoolOracle) (mkfsRun : String → Option SErr)
    (poolName : String) (baseImageSizeBytes : Nat) (key parent newID : String)
    (m : Meta) : Option (List SErr) × Meta × List SnapEvent × List Mount :=
  withTransaction tx true
    (createSnapshot pool mkfsRun poolName baseImageSizeBytes Kind.active key parent newID)
    [] m

/-- `Snapshotter.View`: `createSnapshot` with kind View in a writable
transaction. -/
def View (tx : TxOracle) (pool : PoolOracle) (mkfsRun : String → Option SErr)
    (poolName : String) (baseImageSizeBytes : Nat) (key parent newID : String)
    (m : Meta) : Option (List SErr) × Meta × List SnapEvent × List Mount :=
  withTransaction tx true
    (createSnapshot pool mkfsRun poolName baseImageSizeBytes Kind.view key parent newID)
    [] m

end Snapshotter

/-- The close state of the refactored `Snapshotter`: whether `closeOnce` has
already fired.  The cleanup functions registered in `cleanupFn` (MetaStore
close, pool close) are supplied as a list of outcomes. -/
structure Closer where
  closeOnceDone : Bool
deriving DecidableEq

/-- `Snapshotter.Close`: run every cleanup function exactly once under
`closeOnce`, aggregating their errors with multierror; return the aggregate
(`none` when empty).  The `Nat` output counts the cleanup functions executed
by this call. -/
def close (cleanupErrs : List (Option SErr)) (c : Closer) :
    Option (List SErr) × Closer × Nat :=
  if c.closeOnceDone then (none, c, 0)
  else
    let errs := cleanupErrs.filterMap id
    ((if errs.isEmpty then none else some errs), { closeOnceDone := true }, cleanupErrs.length)

/-- Observable steps of `service.Kill`. -/
inductive KillEvent
  | agentKill
  | cancelCtx
  | stopVM (errLogged : Option SErr)
deriving DecidableEq

/-- `service.Kill`: call the agent Kill RPC; a deferred closure stops the VM
(logging any stop error) when the method returns.  On an agent error the
method returns that error at once, so the per-task cancel is skipped; on
success it cancels the per-task context and returns the response.  The
deferred VM stop therefore runs last in both cases. -/
def Kill (agentResult : Except SErr Nat) (stopErr : Option SErr) :
    Except SErr Nat × List KillEvent :=
  match agentResult with
  | .error e => (.error e, [KillEvent.agentKill, KillEvent.stopVM stopErr])
  | .ok r => (.ok r, [KillEvent.agentKill, KillEvent.cancelCtx, KillEvent.stopVM stopErr])

/-- The container id, pid, exit status and timestamp carried by a published
`TaskExit` event. -/
structure TaskExitEvent where
  containerID : String
  id : String
  pid : Nat
  exitStatus : Nat
  exitedAt : Nat
deriving DecidableEq

/-- Observable steps of `service.Shutdown`. -/
inductive ShutdownEvent
  | agentShutdownCall
  | stopVMCall
  | cancelCtx
  | processExit
deriving DecidableEq

/-- `service.Shutdown`: call agent Shutdown (its error is only logged), stop
the VM (an error there is returned and the method stops), cancel the per-task
context and terminate the process.  The third component lists the `TaskExit`
events Shutdown publishes to the host event bus: the body contains no publish
call, so it is always empty. -/
def Shutdown (_agentShutdownErrLogged : Option SErr) (stopErr : Option SErr) :
    Except SErr Unit × List ShutdownEvent × List TaskExitEvent :=
  match stopErr with
  | some e =>
    (.error e, [ShutdownEvent.agentShutdownCall, ShutdownEvent.stopVMCall], [])
  | none =>
    (.ok (), [ShutdownEvent.agentShutdownCall, ShutdownEvent.stopVMCall,
              ShutdownEvent.cancelCtx, ShutdownEvent.processExit], [])

/-- containerd `task.Status` values observed by the state monitor. -/
inductive TaskStatus
  | unknown
  | created
  | running
  | stopped
  | paused
  | pausing
deriving DecidableEq

/-- What one iteration of the `monitorState` select loop observes: the
per-task context became done, the `State` RPC failed (the loop continues), or
the `State` RPC returned a status and exit status. -/
inductive PollOutcome
  | ctxDone
  | stateErr (e : SErr)
  | stateOk (status : TaskStatus) (exitStatus : Nat)
deriving DecidableEq

/-- Whether a poll outcome makes the monitor loop return. -/
def stopsLoop : PollOutcome → Bool
  | PollOutcome.ctxDone => true
  | PollOutcome.stateErr _ => false
  | PollOutcome.stateOk st _ => st == TaskStatus.stopped

/-- Observable actions of the state monitor. -/
inductive MonEvent
  | publishTaskExit (e : TaskExitEvent)
  | shutdownCall
  | serverClose
deriving DecidableEq

/-- `service.monitorState`: poll `State` once per tick.  On context
cancellation return.  On a `State` error log and continue.  On status Stopped
publish one `TaskExit` (container id and id are both the shim id `sid`, pid
from the Start response, exit status from the State response, timestamp taken
at the tick), invoke `Shutdown`, close the server and return.  The input list
is the finite prefix of poll outcomes under scrutiny; `now k` is the wall
clock at tick `k`.  The `Bool` result says whether the loop returned within
that prefix. -/
def monitorState (sid : String) (pid : Nat) (now : Nat → Nat) :
    List PollOutcome → Nat → List MonEvent × Bool
  | [], _ => ([], false)
  | PollOutcome.ctxDone :: _, _ => ([], true)
  | PollOutcome.stateErr _ :: rest, k => monitorState sid pid now rest (k + 1)
  | PollOutcome.stateOk st ex :: rest, k =>
    if st = TaskStatus.stopped then
      ([MonEvent.publishTaskExit
          { containerID := sid, id := sid, pid := pid, exitStatus := ex, exitedAt := now k },
        MonEvent.shutdownCall, MonEvent.serverClose], true)
    else monitorState sid pid now rest (k + 1)

/-- Number of `TaskExit` publications in a monitor trace. -/
def countPublishes (evs : List MonEvent) : Nat :=
  evs.countP (fun e => match e with | MonEvent.publishTaskExit _ => true | _ => false)

/-- `dialVsock`: up to `fuel` attempts starting at attempt number `i` with the
current backoff `delay`; a failed attempt sleeps `delay`, records the error
and doubles the delay.  Results: the connection of the first successful
attempt or the last error (`none` only if no attempt ran), the list of sleeps
performed, and the list of attempt numbers dialed. -/
def dialLoop (dial : Nat → Except SErr Nat) :
    Nat → Nat → Nat → Option SErr → Except (Option SErr) Nat × List Nat × List Nat
  | _, 0, _, lastErr => (.error lastErr, [], [])
  | i, fuel + 1, delay, _ =>
    match dial i with
    | .ok c => (.ok c, [], [i])
    | .error e =>
      let r := dialLoop dial (i + 1) fuel (delay * 2) (some e)
      (r.1, delay :: r.2.1, i :: r.2.2)

/-- `dialVsock` with the constants of the source: retryCount 5, initial delay
100 ms, multiplier 2.  `dial i` is the outcome of the i-th `vsock.Dial`. -/
def dialVsock (dial : Nat → Except SErr Nat) :
    Except (Option SErr) Nat × List Nat × List Nat :=
  dialLoop dial 1 5 100 none

/-- Outcome of one `VHOST_VSOCK_SET_GUEST_CID` ioctl: errno 0, `EADDRINUSE`,
or another errno. -/
inductive IoctlResult
  | success
  | addressInUse
  | otherError (e : Nat)
deriving DecidableEq

/-- Result of `findNextAvailableVsockCID`. -/
inductive CIDResult
  | found (cid : Nat)
  | fatal (e : Nat)
  | openFailed (e : Nat)
  | exhausted
deriving DecidableEq

/-- `math.MaxUint32`, the exclusive bound of the CID scan loop. -/
def maxCID : Nat := 2 ^ 32 - 1

/-- The scan loop of `findNextAvailableVsockCID` for an uncancelled context:
`fuel` iterations starting at `cur`, mirroring
`for contextID := startCID; contextID < maxCID; contextID++`.  Errno 0
returns the current id, `EADDRINUSE` advances, any other errno aborts. -/
def scanCID (ioctl : Nat → IoctlResult) : Nat → Nat → CIDResult
  | _, 0 => CIDResult.exhausted
  | cur, fuel + 1 =>
    match ioctl cur with
    | IoctlResult.success => CIDResult.found cur
    | IoctlResult.addressInUse => scanCID ioctl (cur + 1) fuel
    | IoctlResult.otherError e => CIDResult.fatal e

/-- `findNextAvailableVsockCID` (uncancelled context): open `/dev/vhost-vsock`
(failure aborts), then scan ids from startCID 3 while the id is below
`maxCID`, so the loop body runs for ids 3 .. maxCID − 1 and the fuel is
`maxCID − 3`. -/
def findNextAvailableVsockCID (openErr : Option Nat) (ioctl : Nat → IoctlResult) :
    CIDResult :=
  match openErr with
  | some e => CIDResult.openFailed e
  | none => scanCID ioctl 3 (maxCID - 3)

/-- A rootfs mount of the Create request: filesystem type and source. -/
structure Mnt where
  type : String
  source : String
deriving DecidableEq

/-- A firecracker drive entry as built by `startVM`. -/
structure Drive where
  driveID : String
  pathOnHost : String
  isRootDevice : Bool
  isReadOnly : Bool
deriving DecidableEq

/-- The rootfs loop of `startVM`: for the mount at zero-based index `i`,
reject a filesystem type other than ext4 with the unsupported-mount error,
otherwise append drive `i + 2` for it. -/
def buildRootfsDrives : Nat → List Mnt → Except SErr (List Drive)
  | _, [] => .ok []
  | i, mnt :: rest =>
    if mnt.type ≠ "ext4" then .error (SErr.unsupportedMountType mnt.type)
    else
      match buildRootfsDrives (i + 1) rest with
      | .error e => .error e
      | .ok ds =>
        .ok ({ driveID := toString (i + 2), pathOnHost := mnt.source,
               isRootDevice := false, isReadOnly := false } :: ds)

/-- Observable steps of `service.startVM`.  The hypervisor child process is
spawned inside `machineStart` (the SDK Start call runs the configured command
and then invokes the Start API); `vmmCancel` is the deferred cancel of the
hypervisor context, which fires on every return path after it is set. -/
inductive VMEvent
  | findCID
  | buildCommand
  | newMachine
  | machineStart
  | dialVsockCall
  | stopVMCall
  | vmmCancel
deriving DecidableEq

/-- Outcomes of the external calls `startVM` makes. -/
structure StartVMOracle where
  cidResult : Except SErr Nat
  newMachineErr : Option SErr
  startErr : Option SErr
  dialResult : Except SErr Nat

/-- `service.startVM`: allocate a CID; build the firecracker config including
the rootfs drives (rejecting any non-ext4 mount before the command is built);
build the hypervisor command; create the machine under a context whose cancel
is deferred; start the machine; dial the agent vsock, stopping the VM when the
dial fails; return the agent client connection. -/
def startVM (o : StartVMOracle) (rootfs : List Mnt) :
    Except SErr Nat × List VMEvent :=
  match o.cidResult with
  | .error e => (.error e, [VMEvent.findCID])
  | .ok _cid =>
    match buildRootfsDrives 0 rootfs with
    | .error e => (.error e, [VMEvent.findCID])
    | .ok _drives =>
      match o.newMachineErr with
      | some e =>
        (.error e, [VMEvent.findCID, VMEvent.buildCommand, VMEvent.newMachine,
                    VMEvent.vmmCancel])
      | none =>
        match o.startErr with
        | some e =>
          (.error e, [VMEvent.findCID, VMEvent.buildCommand, VMEvent.newMachine,
                      VMEvent.machineStart, VMEvent.vmmCancel])
        | none =>
          match o.dialResult with
          | .error e =>
            (.error e, [VMEvent.findCID, VMEvent.buildCommand, VMEvent.newMachine,
                        VMEvent.machineStart, VMEvent.dialVsockCall,
                        VMEvent.stopVMCall, VMEvent.vmmCancel])
          | .ok conn =>
            (.ok conn, [VMEvent.findCID, VMEvent.buildCommand, VMEvent.newMachine,
                        VMEvent.machineStart, VMEvent.dialVsockCall,
                        VMEvent.vmmCancel])

/-! Helper lemmas. -/

/-- After erasing a key, looking it up yields nothing. -/
theorem metaLookup_metaErase (key : String) (m : Meta) :
    metaLookup key (metaErase key m) = none := by
  induction m with
  | nil => rfl
  | cons p rest ih =>
    by_cases h : p.1 = key
    · simpa [metaErase, h] using ih
    · simp [metaErase, metaLookup, h, ih]

/-- `storageCreateSnapshot` records exactly the requested kind. -/
theorem storageCreateSnapshot_kind (kind : Kind) (key parent newID : String)
    (m : Meta) (snap : SnapRecord) (mAfter : Meta)
    (h : storageCreateSnapshot kind key parent newID m = .ok (snap, mAfter)) :
    snap.kind = kind := by
  unfold storageCreateSnapshot at h
  split at h
  · cases h
  · split at h
    · simp only [Except.ok.injEq, Prod.mk.injEq] at h
      rw [← h.1]
    · split at h
      · cases h
      · simp only [Except.ok.injEq, Prod.mk.injEq] at h
        rw [← h.1]

/-- A successful `createSnapshot` returns the mounts built from a record of
the requested kind. -/
theorem createSnapshot_fst_none (pool : PoolOracle) (mkfsRun : String → Option SErr)
    (poolName : String) (base : Nat) (kind : Kind) (key parent newID : String)
    (m : Meta)
    (h : (Snapshotter.createSnapshot pool mkfsRun poolName base kind key parent newID m).1
          = none) :
    ∃ snap : SnapRecord, snap.kind = kind ∧
      (Snapshotter.createSnapshot pool mkfsRun poolName base kind key parent newID m).2.2.2
        = buildMounts poolName snap := by
  cases hcs : storageCreateSnapshot kind key parent newID m with
  | error e => simp [Snapshotter.createSnapshot, hcs] at h
  | ok pr =>
    obtain ⟨snap, mAfter⟩ := pr
    refine ⟨snap, storageCreateSnapshot_kind kind key parent newID m snap mAfter hcs, ?_⟩
    simp only [Snapshotter.createSnapshot, hcs] at h ⊢
    by_cases hp : snap.parentIDs.isEmpty = true
    · simp only [hp, if_true] at h ⊢
      cases htd : pool.createThinDevice (getDeviceName poolName snap.id) base with
      | some e => simp [htd] at h
      | none =>
        simp only [htd] at h ⊢
        cases hmk : mkfsRun (getDeviceName poolName snap.id) with
        | some e => simp [hmk] at h
        | none => simp [hmk]
    · rcases hl : snap.parentIDs with _ | ⟨p, ps⟩
      · rw [hl] at hp
        exact absurd rfl hp
      · cases hsd : pool.createSnapshotDevice (getDeviceName poolName p)
            (getDeviceName poolName snap.id) base with
        | some e => simp [hl, hsd] at h
        | none => simp [hl, hsd]

/-- A writable transaction that reports no error ran its callback without
error and passed the callback output through. -/
theorem withTransaction_ok_writable {α : Type} (tx : TxOracle)
    (fn : Meta → Option SErr × Meta × List SnapEvent × α) (dflt : α) (m : Meta)
    (h : (withTransaction tx true fn dflt m).1 = none) :
    (fn m).1 = none ∧
      (withTransaction tx true fn dflt m).2.2.2 = (fn m).2.2.2 := by
  cases ho : tx.openErr with
  | some e => simp [withTransaction, ho] at h
  | none =>
    rcases hf : fn m with ⟨ferr, mA, evs, out⟩
    cases ferr with
    | some e => simp [withTransaction, ho, hf] at h
    | none =>
      cases hc : tx.commitErr with
      | some te => simp [withTransaction, ho, hf, hc] at h
      | none => simp [withTransaction, ho, hf, hc]

/-- Length bound for the dial loop: at most `fuel` attempts. -/
theorem dialLoop_attempts_le (dial : Nat → Except SErr Nat) :
    ∀ (fuel i delay : Nat) (lastErr : Option SErr),
      (dialLoop dial i fuel delay lastErr).2.2.length ≤ fuel := by
  intro fuel
  induction fuel with
  | zero => intro i delay lastErr; simp [dialLoop]
  | succ f ih =>
    intro i delay lastErr
    cases hd : dial i with
    | ok c => simp [dialLoop, hd]
    | error e =>
      simp only [dialLoop, hd, List.length_cons]
      exact Nat.succ_le_succ (ih (i + 1) (delay * 2) (some e))

/-- Scan success: the least admissible id wins. -/
theorem scanCID_found (ioctl : Nat → IoctlResult) :
    ∀ (fuel cur n : Nat), cur ≤ n → n < cur + fuel →
      ioctl n = IoctlResult.success →
      (∀ m, cur ≤ m → m < n → ioctl m = IoctlResult.addressInUse) →
      scanCID ioctl cur fuel = CIDResult.found n := by
  intro fuel
  induction fuel with
  | zero => intro cur n h1 h2 _ _; omega
  | succ f ih =>
    intro cur n h1 h2 hs hpre
    rcases eq_or_lt_of_le h1 with rfl | hlt
    · simp [scanCID, hs]
    · have hcur : ioctl cur = IoctlResult.addressInUse := hpre cur le_rfl hlt
      simp only [scanCID, hcur]
      exact ih (cur + 1) n hlt (by omega) hs (fun q hq1 hq2 => hpre q (by omega) hq2)

/-- Scan abort: a non-`EADDRINUSE` errno at the least admissible id is fatal. -/
theorem scanCID_fatal (ioctl : Nat → IoctlResult) :
    ∀ (fuel cur n e : Nat), cur ≤ n → n < cur + fuel →
      ioctl n = IoctlResult.otherError e →
      (∀ m, cur ≤ m → m < n → ioctl m = IoctlResult.addressInUse) →
      scanCID ioctl cur fuel = CIDResult.fatal e := by
  intro fuel
  induction fuel with
  | zero => intro cur n e h1 h2 _ _; omega
  | succ f ih =>
    intro cur n e h1 h2 hs hpre
    rcases eq_or_lt_of_le h1 with rfl | hlt
    · simp [scanCID, hs]
    · have hcur : ioctl cur = IoctlResult.addressInUse := hpre cur le_rfl hlt
      simp only [scanCID, hcur]
      exact ih (cur + 1) n e hlt (by omega) hs (fun q hq1 hq2 => hpre q (by omega) hq2)

/-- Scan exhaustion: if the whole scanned window is `EADDRINUSE`, the loop
gives up. -/
theorem scanCID_exhausted (ioctl : Nat → IoctlResult) :
    ∀ (fuel cur : Nat),
      (∀ m, cur ≤ m → m < cur + fuel → ioctl m = IoctlResult.addressInUse) →
      scanCID ioctl cur fuel = CIDResult.exhausted := by
  intro fuel
  induction fuel with
  | zero => intro cur _; rfl
  | succ f ih =>
    intro cur h
    have hcur : ioctl cur = IoctlResult.addressInUse := h cur le_rfl (by omega)
    simp only [scanCID, hcur]
    exact ih (cur + 1) (fun q hq1 hq2 => h q (by omega) (by omega))

/-- Scan success inversion: a found id lies in the scanned window and its
ioctl succeeded. -/
theorem scanCID_found_inv (ioctl : Nat → IoctlResult) :
    ∀ (fuel cur n : Nat), scanCID ioctl cur fuel = CIDResult.found n →
      cur ≤ n ∧ n < cur + fuel ∧ ioctl n = IoctlResult.success := by
  intro fuel
  induction fuel with
  | zero => intro cur n h; cases h
  | succ f ih =>
    intro cur n h
    cases hc : ioctl cur with
    | success =>
      simp only [scanCID, hc] at h
      cases h
      exact ⟨le_rfl, by omega, hc⟩
    | addressInUse =>
      simp only [scanCID, hc] at h
      obtain ⟨h1, h2, h3⟩ := ih (cur + 1) n h
      exact ⟨by omega, by omega, h3⟩
    | otherError e =>
      simp only [scanCID, hc] at h
      exact CIDResult.noConfusion h

/-- Rejection lemma for the rootfs drive loop: a non-ext4 mount anywhere in
the list makes the loop fail with an unsupported-mount-type error. -/
theorem buildRootfsDrives_reject :
    ∀ (l : List Mnt), (∃ mnt ∈ l, mnt.type ≠ "ext4") →
      ∀ i, ∃ t, t ≠ "ext4" ∧
        buildRootfsDrives i l = .error (SErr.unsupportedMountType t) := by
  intro l
  induction l with
  | nil => rintro ⟨mnt, hm, _⟩; cases hm
  | cons hd tl ih =>
    rintro ⟨mnt, hm, hbad⟩ i
    by_cases h : hd.type = "ext4"
    · have hmem : ∃ q ∈ tl, q.type ≠ "ext4" := by
        rcases List.mem_cons.mp hm with h1 | h1
        · subst h1; exact absurd h hbad
        · exact ⟨mnt, h1, hbad⟩
      obtain ⟨t, htne, ht⟩ := ih hmem (i + 1)
      exact ⟨t, htne, by simp [buildRootfsDrives, h, ht]⟩
    · exact ⟨hd.type, h, by simp [buildRootfsDrives, h]⟩

/-! Claim theorems. -/

/-- Claim C1, counterexample.  The claim asserts the order agent-Kill RPC →
VM stop → context cancel, with the context always cancelled.  In the code the
VM stop is deferred, so on agent success the trace is
agent-Kill → cancel → VM stop, and on agent error the per-task context is
never cancelled at all. -/
theorem C1_counterexample :
    (Kill (.ok 0) none).2
        = [KillEvent.agentKill, KillEvent.cancelCtx, KillEvent.stopVM none]
  ∧ (Kill (.ok 0) none).2
        ≠ [KillEvent.agentKill, KillEvent.stopVM none, KillEvent.cancelCtx]
  ∧ (Kill (.error (SErr.agentErr 7)) none).2
        = [KillEvent.agentKill, KillEvent.stopVM none]
  ∧ KillEvent.cancelCtx ∉ (Kill (.error (SErr.agentErr 7)) none).2 := by
  refine ⟨rfl, by decide, rfl, by decide⟩

/-- Claim C1, amended.  After the agent Kill RPC returns, the shim always
tears down the VM, but through a deferred call that runs last; the per-task
context is cancelled only when the agent call succeeded, giving the order
agent-Kill RPC → context cancel (success only) → VM stop.  A VM-stop error is
only logged and the agent call result is returned unchanged. -/
theorem C1_kill_thm (r : Except SErr Nat) (se : Option SErr) :
    (Kill r se).1 = r
  ∧ (Kill r se).2.head? = some KillEvent.agentKill
  ∧ (Kill r se).2.getLast? = some (KillEvent.stopVM se)
  ∧ (∀ x, r = .ok x →
      (Kill r se).2 = [KillEvent.agentKill, KillEvent.cancelCtx, KillEvent.stopVM se])
  ∧ (∀ e, r = .error e →
      (Kill r se).2 = [KillEvent.agentKill, KillEvent.stopVM se]
      ∧ KillEvent.cancelCtx ∉ (Kill r se).2) := by
  cases r <;> simp [Kill, List.getLast?]

/-- Witness for C1_kill_thm at a successful agent call with a failing VM
stop. -/
theorem C1_kill_witness :
    (Kill (.ok 3) (some (SErr.deviceErr 1))).1 = .ok 3
  ∧ (Kill (.ok 3) (some (SErr.deviceErr 1))).2
      = [KillEvent.agentKill, KillEvent.cancelCtx,
         KillEvent.stopVM (some (SErr.deviceErr 1))] :=
  ⟨(C1_kill_thm (.ok 3) (some (SErr.deviceErr 1))).1,
   (C1_kill_thm (.ok 3) (some (SErr.deviceErr 1))).2.2.2.1 3 rfl⟩

/-- Claim C6: a Create request whose rootfs list holds a non-ext4 mount makes
startVM fail with the unsupported-mount-type rejection (the InvalidArgument
error of the spec), before the hypervisor machine is even constructed, so
before the child process is spawned and before the hypervisor Start API is
invoked. -/
theorem C6_thm (o : StartVMOracle) (rootfs : List Mnt) (c : Nat)
    (h1 : o.cidResult = .ok c)
    (h2 : ∃ mnt ∈ rootfs, mnt.type ≠ "ext4") :
    (∃ t, t ≠ "ext4" ∧ (startVM o rootfs).1 = .error (SErr.unsupportedMountType t))
  ∧ VMEvent.machineStart ∉ (startVM o rootfs).2
  ∧ VMEvent.newMachine ∉ (startVM o rootfs).2
  ∧ (startVM o rootfs).2 = [VMEvent.findCID] := by
  obtain ⟨t, htne, ht⟩ := buildRootfsDrives_reject rootfs h2 0
  refine ⟨⟨t, htne, ?_⟩, ?_, ?_, ?_⟩ <;> simp [startVM, h1, ht]

/-- Witness for C6_thm: the xfs rootfs of spec scenario S4. -/
theorem C6_witness :
    (∃ t, t ≠ "ext4" ∧
      (startVM ⟨.ok 3, none, none, .ok 0⟩ [⟨"xfs", "/foo"⟩]).1
        = .error (SErr.unsupportedMountType t))
  ∧ VMEvent.machineStart ∉ (startVM ⟨.ok 3, none, none, .ok 0⟩ [⟨"xfs", "/foo"⟩]).2 :=
  ⟨(C6_thm ⟨.ok 3, none, none, .ok 0⟩ [⟨"xfs", "/foo"⟩] 3 rfl
      ⟨⟨"xfs", "/foo"⟩, by decide, by decide⟩).1,
   (C6_thm ⟨.ok 3, none, none, .ok 0⟩ [⟨"xfs", "/foo"⟩] 3 rfl
      ⟨⟨"xfs", "/foo"⟩, by decide, by decide⟩).2.1⟩

/-- Claim C7, counterexample.  The claim asserts that a hypervisor Start
failure after the child was spawned tears the child down before the error
returns.  In the code a Start failure returns the error at once: the only
thing that runs is the deferred cancel of the hypervisor context, and
`stopVM` is never called on that path. -/
theorem C7_counterexample :
    (startVM ⟨.ok 3, none, some (SErr.agentErr 7), .ok 0⟩ []).1
        = .error (SErr.agentErr 7)
  ∧ VMEvent.stopVMCall ∉ (startVM ⟨.ok 3, none, some (SErr.agentErr 7), .ok 0⟩ []).2
  ∧ (startVM ⟨.ok 3, none, some (SErr.agentErr 7), .ok 0⟩ []).2
        = [VMEvent.findCID, VMEvent.buildCommand, VMEvent.newMachine,
           VMEvent.machineStart, VMEvent.vmmCancel] := by
  refine ⟨rfl, by decide, rfl⟩

/-- Claim C7, amended.  When the hypervisor Start call fails, startVM returns
the error directly; the only cleanup on that path is the deferred cancel of
the hypervisor context, and `stopVM` is not invoked.  The explicit `stopVM`
teardown runs, before the error is returned, only when the vsock dial to the
agent fails after Start succeeded. -/
theorem C7_startvm_thm (o : StartVMOracle) (rootfs : List Mnt) (c : Nat)
    (ds : List Drive) (h1 : o.cidResult = .ok c)
    (h2 : buildRootfsDrives 0 rootfs = .ok ds) (h3 : o.newMachineErr = none) :
    (∀ e, o.startErr = some e →
      (startVM o rootfs).1 = .error e
      ∧ VMEvent.stopVMCall ∉ (startVM o rootfs).2
      ∧ (startVM o rootfs).2
          = [VMEvent.findCID, VMEvent.buildCommand, VMEvent.newMachine,
             VMEvent.machineStart, VMEvent.vmmCancel])
  ∧ (∀ e, o.startErr = none → o.dialResult = .error e →
      (startVM o rootfs).1 = .error e
      ∧ (startVM o rootfs).2
          = [VMEvent.findCID, VMEvent.buildCommand, VMEvent.newMachine,
             VMEvent.machineStart, VMEvent.dialVsockCall, VMEvent.stopVMCall,
             VMEvent.vmmCancel]) := by
  constructor
  · intro e he
    refine ⟨?_, ?_, ?_⟩ <;> simp [startVM, h1, h2, h3, he]
  · intro e hs hd
    refine ⟨?_, ?_⟩ <;> simp [startVM, h1, h2, h3, hs, hd]

/-- Witness for C7_startvm_thm at a concrete failing Start call. -/
theorem C7_startvm_witness :
    (startVM ⟨.ok 3, none, some (SErr.deviceErr 9), .ok 0⟩ []).1
        = .error (SErr.deviceErr 9)
  ∧ VMEvent.stopVMCall ∉ (startVM ⟨.ok 3, none, some (SErr.deviceErr 9), .ok 0⟩ []).2 :=
  ⟨((C7_startvm_thm ⟨.ok 3, none, some (SErr.deviceErr 9), .ok 0⟩ [] 3 [] rfl rfl
      rfl).1 (SErr.deviceErr 9) rfl).1,
   ((C7_startvm_thm ⟨.ok 3, none, some (SErr.deviceErr 9), .ok 0⟩ [] 3 [] rfl rfl
      rfl).1 (SErr.deviceErr 9) rfl).2.1⟩

/-- Claim C8, counterexample.  The claim asserts the second Close call
returns the same aggregated error as the first.  With a cleanup function that
fails, the first call returns that error while the second call, skipped by
`closeOnce`, returns nil. -/
theorem C8_counterexample :
    (close [some (SErr.deviceErr 1)] ⟨false⟩).1 = some [SErr.deviceErr 1]
  ∧ (close [some (SErr.deviceErr 1)]
       (close [some (SErr.deviceErr 1)] ⟨false⟩).2.1).1 = none
  ∧ (close [some (SErr.deviceErr 1)] ⟨false⟩).1
      ≠ (close [some (SErr.deviceErr 1)]
          (close [some (SErr.deviceErr 1)] ⟨false⟩).2.1).1
  ∧ (close [some (SErr.deviceErr 1)] ⟨false⟩).2.2 = 1
  ∧ (close [some (SErr.deviceErr 1)]
       (close [some (SErr.deviceErr 1)] ⟨false⟩).2.1).2.2 = 0 := by
  refine ⟨rfl, rfl, by decide, rfl, rfl⟩

/-- Claim C8, amended.  Close is release-once: the first call runs every
cleanup function exactly once and returns their aggregated error; the second
call performs no resource release and returns nil regardless of what the
first call returned. -/
theorem C8_close_thm (errs1 errs2 : List (Option SErr)) :
    ((close errs1 ⟨false⟩).2.2 = errs1.length)
  ∧ (close errs2 (close errs1 ⟨false⟩).2.1).1 = none
  ∧ (close errs2 (close errs1 ⟨false⟩).2.1).2.2 = 0
  ∧ (close errs1 ⟨false⟩).2.1 = ⟨true⟩ := by
  refine ⟨?_, ?_, ?_, ?_⟩ <;> simp [close]

/-- Claim C10: `Snapshotter.Mounts` returns a nil error no matter whether the
read transaction could be opened or the snapshot fetch failed; when the
record could not be fetched it returns the single mount built from the
zero-value snapshot record, whose options then include `ro`. -/
theorem C10_mounts_thm (tx : TxOracle) (poolName key : String) (m : Meta) :
    ((Snapshotter.Mounts tx poolName key m).2.1 = none)
  ∧ (tx.openErr = none → metaLookup key m = none →
      (Snapshotter.Mounts tx poolName key m).1 = buildMounts poolName zeroSnapshot
      ∧ ∀ mnt ∈ (Snapshotter.Mounts tx poolName key m).1, "ro" ∈ mnt.options)
  ∧ (∀ e, tx.openErr = some e →
      (Snapshotter.Mounts tx poolName key m).1 = buildMounts poolName zeroSnapshot
      ∧ ∀ mnt ∈ (Snapshotter.Mounts tx poolName key m).1, "ro" ∈ mnt.options)
  ∧ (∀ r, tx.openErr = none → metaLookup key m = some r →
      (Snapshotter.Mounts tx poolName key m).1 = buildMounts poolName r) := by
  refine ⟨rfl, ?_, ?_, ?_⟩
  · intro h1 h2
    constructor
    · simp [Snapshotter.Mounts, withTransaction, Snapshotter.mountsFetch,
        storageGetSnapshot, h1, h2]
    · intro mnt hmnt
      simp [Snapshotter.Mounts, withTransaction, Snapshotter.mountsFetch,
        storageGetSnapshot, h1, h2, buildMounts, zeroSnapshot] at hmnt
      simp [hmnt]
  · intro e h1
    constructor
    · simp [Snapshotter.Mounts, withTransaction, h1]
    · intro mnt hmnt
      simp [Snapshotter.Mounts, withTransaction, h1, buildMounts, zeroSnapshot] at hmnt
      simp [hmnt]
  · intro r h1 h2
    simp [Snapshotter.Mounts, withTransaction, Snapshotter.mountsFetch,
      storageGetSnapshot, h1, h2]

/-- Witness for C10_mounts_thm at an empty store, where the fetch fails. -/
theorem C10_mounts_witness :
    (Snapshotter.Mounts ⟨none, none, none⟩ "p0" "k" []).2.1 = none
  ∧ ∀ mnt ∈ (Snapshotter.Mounts ⟨none, none, none⟩ "p0" "k" []).1,
      "ro" ∈ mnt.options :=
  ⟨(C10_mounts_thm ⟨none, none, none⟩ "p0" "k" []).1,
   ((C10_mounts_thm ⟨none, none, none⟩ "p0" "k" []).2.1 rfl rfl).2⟩

/-- Claim C2: `Snapshotter.Remove` deletes the MetaStore record and then
removes the corresponding device with deferred removal, both inside one
writable transaction; a device-removal error fails the whole operation and
rolls the metadata deletion back, leaving the snapshot record unchanged;
success commits the deletion. -/
theorem C2_remove_thm (tx : TxOracle) (pool : PoolOracle) (poolName key : String)
    (m : Meta) (r : SnapRecord)
    (hopen : tx.openErr = none) (hrec : metaLookup key m = some r) :
    ((Snapshotter.Remove tx pool poolName key m).2.2.1
       = [SnapEvent.txBegin true, SnapEvent.storageRemoveCall key,
          SnapEvent.removeDeviceCall (getDeviceName poolName r.id) true,
          if (pool.removeDevice (getDeviceName poolName r.id) true).isSome
          then SnapEvent.txRollback else SnapEvent.txCommit])
  ∧ (∀ e, pool.removeDevice (getDeviceName poolName r.id) true = some e →
      (Snapshotter.Remove tx pool poolName key m).1 = some (e :: tx.rollbackErr.toList)
      ∧ (Snapshotter.Remove tx pool poolName key m).2.1 = m
      ∧ metaLookup key (Snapshotter.Remove tx pool poolName key m).2.1 = some r)
  ∧ (pool.removeDevice (getDeviceName poolName r.id) true = none →
      tx.commitErr = none →
      (Snapshotter.Remove tx pool poolName key m).1 = none
      ∧ metaLookup key (Snapshotter.Remove tx pool poolName key m).2.1 = none) := by
  refine ⟨?_, ?_, ?_⟩
  · cases hpd : pool.removeDevice (getDeviceName poolName r.id) true with
    | some e =>
      simp [Snapshotter.Remove, Snapshotter.removeDevice, withTransaction,
        storageRemove, hopen, hrec, hpd]
    | none =>
      cases hc : tx.commitErr <;>
        simp [Snapshotter.Remove, Snapshotter.removeDevice, withTransaction,
          storageRemove, hopen, hrec, hpd, hc]
  · intro e hpd
    refine ⟨?_, ?_, ?_⟩ <;>
      simp [Snapshotter.Remove, Snapshotter.removeDevice, withTransaction,
        storageRemove, hopen, hrec, hpd]
  · intro hpd hc
    constructor <;>
      simp [Snapshotter.Remove, Snapshotter.removeDevice, withTransaction,
        storageRemove, hopen, hrec, hpd, hc, metaLookup_metaErase]

/-- Witness for C2_remove_thm: one-record store, device removal failing. -/
theorem C2_remove_witness :
    (Snapshotter.Remove ⟨none, none, none⟩
        ⟨fun _ _ => some (SErr.deviceErr 3), fun _ _ => none, fun _ _ _ => none⟩
        "p0" "k" [("k", ⟨"id1", Kind.active, []⟩)]).1
      = some [SErr.deviceErr 3]
  ∧ (Snapshotter.Remove ⟨none, none, none⟩
        ⟨fun _ _ => some (SErr.deviceErr 3), fun _ _ => none, fun _ _ _ => none⟩
        "p0" "k" [("k", ⟨"id1", Kind.active, []⟩)]).2.1
      = [("k", ⟨"id1", Kind.active, []⟩)] :=
  ⟨((C2_remove_thm ⟨none, none, none⟩
      ⟨fun _ _ => some (SErr.deviceErr 3), fun _ _ => none, fun _ _ _ => none⟩
      "p0" "k" [("k", ⟨"id1", Kind.active, []⟩)] ⟨"id1", Kind.active, []⟩
      rfl rfl).2.1 (SErr.deviceErr 3) rfl).1,
   ((C2_remove_thm ⟨none, none, none⟩
      ⟨fun _ _ => some (SErr.deviceErr 3), fun _ _ => none, fun _ _ _ => none⟩
      "p0" "k" [("k", ⟨"id1", Kind.active, []⟩)] ⟨"id1", Kind.active, []⟩
      rfl rfl).2.1 (SErr.deviceErr 3) rfl).2.1⟩

/-- Claim C5: the mount list built for a snapshot record holds exactly one
mount of type `ext4` whose source is the device path derived from the
canonical name `<pool>-snap-<snapshot-id>` and whose options contain `ro`
exactly when the kind is not Active; a successful Prepare therefore yields no
`ro` option and a successful View yields `ro`.  `Mounts` returns the same
`buildMounts` output (see C10_mounts_thm for the fetched record). -/
theorem C5_mounts_thm (poolName : String) (snap : SnapRecord) :
    (buildMounts poolName snap).length = 1
  ∧ (∀ mnt ∈ buildMounts poolName snap,
      mnt.type = "ext4"
      ∧ mnt.source = getFullDevicePath (getDeviceName poolName snap.id)
      ∧ ("ro" ∈ mnt.options ↔ snap.kind ≠ Kind.active))
  ∧ (∀ (tx : TxOracle) (pool : PoolOracle) (mkfsRun : String → Option SErr)
       (base : Nat) (key parent newID : String) (m : Meta),
      (Snapshotter.Prepare tx pool mkfsRun poolName base key parent newID m).1 = none →
      ∀ mnt ∈ (Snapshotter.Prepare tx pool mkfsRun poolName base key parent newID m).2.2.2,
        mnt.type = "ext4" ∧ "ro" ∉ mnt.options)
  ∧ (∀ (tx : TxOracle) (pool : PoolOracle) (mkfsRun : String → Option SErr)
       (base : Nat) (key parent newID : String) (m : Meta),
      (Snapshotter.View tx pool mkfsRun poolName base key parent newID m).1 = none →
      ∀ mnt ∈ (Snapshotter.View tx pool mkfsRun poolName base key parent newID m).2.2.2,
        mnt.type = "ext4" ∧ "ro" ∈ mnt.options) := by
  refine ⟨by simp [buildMounts], ?_, ?_, ?_⟩
  · intro mnt hmnt
    rw [buildMounts, List.mem_singleton] at hmnt
    subst hmnt
    refine ⟨rfl, rfl, ?_⟩
    by_cases h : snap.kind = Kind.active <;> simp [h]
  · intro tx pool mkfsRun base key parent newID m h mnt hmnt
    rw [Snapshotter.Prepare] at h hmnt
    obtain ⟨hfn, hout⟩ := withTransaction_ok_writable tx _ [] m h
    obtain ⟨snap2, hkind, hmounts⟩ := createSnapshot_fst_none pool mkfsRun poolName base
      Kind.active key parent newID m hfn
    rw [hout, hmounts, buildMounts, List.mem_singleton] at hmnt
    subst hmnt
    simp [hkind]
  · intro tx pool mkfsRun base key parent newID m h mnt hmnt
    rw [Snapshotter.View] at h hmnt
    obtain ⟨hfn, hout⟩ := withTransaction_ok_writable tx _ [] m h
    obtain ⟨snap2, hkind, hmounts⟩ := createSnapshot_fst_none pool mkfsRun poolName base
      Kind.view key parent newID m hfn
    rw [hout, hmounts, buildMounts, List.mem_singleton] at hmnt
    subst hmnt
    simp [hkind]

/-- Witness for C5_mounts_thm: fresh Prepare and View against an empty store
with all pool calls succeeding. -/
theorem C5_mounts_witness :
    (∀ mnt ∈ (Snapshotter.Prepare ⟨none, none, none⟩
        ⟨fun _ _ => none, fun _ _ => none, fun _ _ _ => none⟩ (fun _ => none)
        "p0" 1024 "a" "" "id1" []).2.2.2,
      mnt.type = "ext4" ∧ "ro" ∉ mnt.options)
  ∧ (∀ mnt ∈ (Snapshotter.View ⟨none, none, none⟩
        ⟨fun _ _ => none, fun _ _ => none, fun _ _ _ => none⟩ (fun _ => none)
        "p0" 1024 "v" "" "id2" []).2.2.2,
      mnt.type = "ext4" ∧ "ro" ∈ mnt.options) :=
  ⟨(C5_mounts_thm "p0" zeroSnapshot).2.2.1 ⟨none, none, none⟩
      ⟨fun _ _ => none, fun _ _ => none, fun _ _ _ => none⟩ (fun _ => none)
      1024 "a" "" "id1" [] rfl,
   (C5_mounts_thm "p0" zeroSnapshot).2.2.2 ⟨none, none, none⟩
      ⟨fun _ _ => none, fun _ _ => none, fun _ _ _ => none⟩ (fun _ => none)
      1024 "v" "" "id2" [] rfl⟩

/-- Claim C9: a state-monitor run publishes at most one TaskExit; when the
polls before the first Stopped report neither cancel the loop nor report
Stopped, the run publishes exactly one TaskExit carrying the shim id, the
pid, the exit status from the State response and the tick timestamp, then
invokes Shutdown, closes the server and exits the loop; Shutdown itself
publishes no TaskExit. -/
theorem C9_monitor_thm (sid : String) (pid : Nat) (now : Nat → Nat) :
    (∀ (steps : List PollOutcome) (k : Nat),
      countPublishes (monitorState sid pid now steps k).1 ≤ 1)
  ∧ (∀ (pre : List PollOutcome) (ex : Nat) (rest : List PollOutcome) (k : Nat),
      (∀ p ∈ pre, stopsLoop p = false) →
      monitorState sid pid now (pre ++ PollOutcome.stateOk TaskStatus.stopped ex :: rest) k
        = ([MonEvent.publishTaskExit
              { containerID := sid, id := sid, pid := pid, exitStatus := ex,
                exitedAt := now (k + pre.length) },
            MonEvent.shutdownCall, MonEvent.serverClose], true))
  ∧ (∀ (ae se : Option SErr), (Shutdown ae se).2.2 = []) := by
  refine ⟨?_, ?_, ?_⟩
  · intro steps
    induction steps with
    | nil => intro k; simp [monitorState, countPublishes]
    | cons p rest ih =>
      intro k
      cases p with
      | ctxDone => simp [monitorState, countPublishes]
      | stateErr e => simpa [monitorState] using ih (k + 1)
      | stateOk st ex =>
        by_cases h : st = TaskStatus.stopped
        · simp [monitorState, h, countPublishes]
        · simpa [monitorState, h] using ih (k + 1)
  · intro pre
    induction pre with
    | nil => intro ex rest k _; simp [monitorState]
    | cons p pre ih =>
      intro ex rest k h
      have hp : stopsLoop p = false := h p (List.mem_cons_self p pre)
      have hrest : ∀ q ∈ pre, stopsLoop q = false :=
        fun q hq => h q (List.mem_cons_of_mem p hq)
      have harith : k + 1 + pre.length = k + (p :: pre).length := by
        simp only [List.length_cons]
        omega
      cases p with
      | ctxDone => simp [stopsLoop] at hp
      | stateErr e =>
        rw [List.cons_append]
        show monitorState sid pid now (_ ++ _ :: rest) (k + 1) = _
        rw [ih ex rest (k + 1) hrest, harith]
      | stateOk st ex2 =>
        have hne : ¬st = TaskStatus.stopped := by
          simpa [stopsLoop] using hp
        rw [List.cons_append]
        show (if st = TaskStatus.stopped then _ else
                monitorState sid pid now (_ ++ _ :: rest) (k + 1)) = _
        rw [if_neg hne, ih ex rest (k + 1) hrest, harith]
  · intro ae se
    cases se <;> rfl

/-- Witness for C9_monitor_thm: one State error and one Running tick before
the Stopped tick. -/
theorem C9_monitor_witness :
    monitorState "c1" 7 (fun k => k)
        [PollOutcome.stateErr (SErr.agentErr 1),
         PollOutcome.stateOk TaskStatus.running 0,
         PollOutcome.stateOk TaskStatus.stopped 42] 0
      = ([MonEvent.publishTaskExit
            { containerID := "c1", id := "c1", pid := 7, exitStatus := 42,
              exitedAt := 2 },
          MonEvent.shutdownCall, MonEvent.serverClose], true) :=
  (C9_monitor_thm "c1" 7 (fun k => k)).2.1
    [PollOutcome.stateErr (SErr.agentErr 1), PollOutcome.stateOk TaskStatus.running 0]
    42 [] 0 (by decide)

/-- Claim C4: the vsock dial makes at most 5 attempts; the first attempt that
connects wins, with the failed attempts before it sleeping the exponential
backoff prefix 100·2^i; when all 5 attempts fail the sleeps are exactly
100, 200, 400, 800, 1600 ms and the error of the last (fifth) attempt is
returned. -/
theorem C4_dial_thm (dial : Nat → Except SErr Nat) :
    ((dialVsock dial).2.2.length ≤ 5)
  ∧ (∀ (k c : Nat), 1 ≤ k → k ≤ 5 → dial k = .ok c →
      (∀ j, 1 ≤ j → j < k → ∃ e, dial j = .error e) →
      (dialVsock dial).1 = .ok c
      ∧ (dialVsock dial).2.1 = (List.range (k - 1)).map (fun t => 100 * 2 ^ t)
      ∧ (dialVsock dial).2.2 = List.range' 1 k)
  ∧ (∀ e1 e2 e3 e4 e5,
      dial 1 = .error e1 → dial 2 = .error e2 → dial 3 = .error e3 →
      dial 4 = .error e4 → dial 5 = .error e5 →
      (dialVsock dial).1 = .error (some e5)
      ∧ (dialVsock dial).2.1 = [100, 200, 400, 800, 1600]
      ∧ (dialVsock dial).2.2 = [1, 2, 3, 4, 5]) := by
  refine ⟨dialLoop_attempts_le dial 5 1 100 none, ?_, ?_⟩
  · intro k c hk1 hk5 hok hprev
    interval_cases k
    · refine ⟨?_, ?_, ?_⟩ <;> simp [dialVsock, dialLoop, hok]
    · obtain ⟨e1, h1⟩ := hprev 1 (by omega) (by omega)
      refine ⟨?_, ?_, ?_⟩ <;> simp [dialVsock, dialLoop, h1, hok, List.range_succ] <;> rfl
    · obtain ⟨e1, h1⟩ := hprev 1 (by omega) (by omega)
      obtain ⟨e2, h2⟩ := hprev 2 (by omega) (by omega)
      refine ⟨?_, ?_, ?_⟩ <;>
        simp [dialVsock, dialLoop, h1, h2, hok, List.range_succ] <;> rfl
    · obtain ⟨e1, h1⟩ := hprev 1 (by omega) (by omega)
      obtain ⟨e2, h2⟩ := hprev 2 (by omega) (by omega)
      obtain ⟨e3, h3⟩ := hprev 3 (by omega) (by omega)
      refine ⟨?_, ?_, ?_⟩ <;>
        simp [dialVsock, dialLoop, h1, h2, h3, hok, List.range_succ] <;> rfl
    · obtain ⟨e1, h1⟩ := hprev 1 (by omega) (by omega)
      obtain ⟨e2, h2⟩ := hprev 2 (by omega) (by omega)
      obtain ⟨e3, h3⟩ := hprev 3 (by omega) (by omega)
      obtain ⟨e4, h4⟩ := hprev 4 (by omega) (by omega)
      refine ⟨?_, ?_, ?_⟩ <;>
        simp [dialVsock, dialLoop, h1, h2, h3, h4, hok, List.range_succ] <;> rfl
  · intro e1 e2 e3 e4 e5 h1 h2 h3 h4 h5
    refine ⟨?_, ?_, ?_⟩ <;> simp [dialVsock, dialLoop, h1, h2, h3, h4, h5]

/-- Witness for C4_dial_thm: success on the third attempt. -/
theorem C4_dial_witness :
    (dialVsock (fun k => if k = 3 then .ok 42 else .error (SErr.dialErr k))).1
        = .ok 42
  ∧ (dialVsock (fun k => if k = 3 then .ok 42 else .error (SErr.dialErr k))).2.1
        = [100, 200] :=
  ⟨((C4_dial_thm (fun k => if k = 3 then .ok 42 else .error (SErr.dialErr k))).2.1
      3 42 (by omega) (by omega) rfl
      (fun j hj1 hj2 => ⟨SErr.dialErr j, by
        have : j ≠ 3 := by omega
        simp [this]⟩)).1,
   by
    have h := ((C4_dial_thm (fun k => if k = 3 then .ok 42 else .error (SErr.dialErr k))).2.1
      3 42 (by omega) (by omega) rfl
      (fun j hj1 hj2 => ⟨SErr.dialErr j, by
        have : j ≠ 3 := by omega
        simp [this]⟩)).2.1
    simpa using h⟩

/-- Unfolding lemma: with a successful device open the allocator is the scan
from 3 with fuel `maxCID - 3`. -/
theorem findNextAvailableVsockCID_none (ioctl : Nat → IoctlResult) :
    findNextAvailableVsockCID none ioctl = scanCID ioctl 3 (maxCID - 3) := rfl

/-- Claim C3, counterexample.  The claim says the maximum CID attempted
before giving up is 2^32 − 1, but the loop bound `contextID < maxCID` is
exclusive: with an ioctl oracle that succeeds exactly at CID 2^32 − 1 and
reports address-in-use everywhere else, the allocator exhausts the scan and
never returns that CID. -/
theorem C3_counterexample :
    findNextAvailableVsockCID none
        (fun n => if n = 2 ^ 32 - 1 then IoctlResult.success else IoctlResult.addressInUse)
      = CIDResult.exhausted
  ∧ findNextAvailableVsockCID none
        (fun n => if n = 2 ^ 32 - 1 then IoctlResult.success else IoctlResult.addressInUse)
      ≠ CIDResult.found (2 ^ 32 - 1) := by
  have hmax : maxCID = 4294967295 := by norm_num [maxCID]
  have h1 : findNextAvailableVsockCID none
      (fun n => if n = 2 ^ 32 - 1 then IoctlResult.success else IoctlResult.addressInUse)
      = CIDResult.exhausted := by
    rw [findNextAvailableVsockCID_none]
    apply scanCID_exhausted
    intro m _ hm2
    have hne : ¬ (m = 2 ^ 32 - 1) := by
      rw [hmax] at hm2
      norm_num
      omega
    show (if m = 2 ^ 32 - 1 then IoctlResult.success else IoctlResult.addressInUse)
        = IoctlResult.addressInUse
    rw [if_neg hne]
  exact ⟨h1, by rw [h1]; simp⟩

/-- Claim C3, amended.  With an uncancelled context and the vsock device
opening successfully, the allocator returns the first integer, scanning
upward from 3, on which the ioctl succeeds — never 0, 1 or 2; address-in-use
advances the scan, any other errno aborts with a fatal error, and the maximum
CID attempted before giving up is 2^32 − 2 (the loop bound 2^32 − 1 is
exclusive). -/
theorem C3_cid_thm (ioctl : Nat → IoctlResult) :
    (∀ n, 3 ≤ n → n ≤ 2 ^ 32 - 2 → ioctl n = IoctlResult.success →
      (∀ m, 3 ≤ m → m < n → ioctl m = IoctlResult.addressInUse) →
      findNextAvailableVsockCID none ioctl = CIDResult.found n)
  ∧ (∀ n, findNextAvailableVsockCID none ioctl = CIDResult.found n →
      3 ≤ n ∧ n ≤ 2 ^ 32 - 2 ∧ ioctl n = IoctlResult.success)
  ∧ (∀ n e, 3 ≤ n → n ≤ 2 ^ 32 - 2 → ioctl n = IoctlResult.otherError e →
      (∀ m, 3 ≤ m → m < n → ioctl m = IoctlResult.addressInUse) →
      findNextAvailableVsockCID none ioctl = CIDResult.fatal e)
  ∧ ((∀ m, 3 ≤ m → m ≤ 2 ^ 32 - 2 → ioctl m = IoctlResult.addressInUse) →
      findNextAvailableVsockCID none ioctl = CIDResult.exhausted) := by
  have hmax : maxCID = 4294967295 := by norm_num [maxCID]
  have hb : (2 : Nat) ^ 32 - 2 = 4294967294 := by norm_num
  refine ⟨?_, ?_, ?_, ?_⟩
  · intro n h3 hub hs hpre
    rw [findNextAvailableVsockCID_none]
    refine scanCID_found ioctl (maxCID - 3) 3 n h3 ?_ hs hpre
    rw [hb] at hub
    rw [hmax]
    omega
  · intro n h
    rw [findNextAvailableVsockCID_none] at h
    have h2 := h
    obtain ⟨ha, hlt, hs⟩ := scanCID_found_inv ioctl (maxCID - 3) 3 n h2
    refine ⟨ha, ?_, hs⟩
    rw [hmax] at hlt
    rw [hb]
    omega
  · intro n e h3 hub hs hpre
    rw [findNextAvailableVsockCID_none]
    refine scanCID_fatal ioctl (maxCID - 3) 3 n e h3 ?_ hs hpre
    rw [hb] at hub
    rw [hmax]
    omega
  · intro hall
    rw [findNextAvailableVsockCID_none]
    apply scanCID_exhausted
    intro m hm1 hm2
    refine hall m hm1 ?_
    rw [hmax] at hm2
    rw [hb]
    omega

/-- Witness for C3_cid_thm: the scan succeeds at CID 5 after 3 and 4 are in
use. -/
theorem C3_cid_witness :
    findNextAvailableVsockCID none
        (fun n => if n = 5 then IoctlResult.success else IoctlResult.addressInUse)
      = CIDResult.found 5 :=
  (C3_cid_thm (fun n => if n = 5 then IoctlResult.success else IoctlResult.addressInUse)).1
    5 (by omega) (by norm_num) rfl
    (fun m _ hm2 => by
      have hne : m ≠ 5 := by omega
      simp [hne])

end FCShim
